import Mathlib

/-!
Verification development for the gdansk repository (`src/gdansk/core.py` and
the Value Bridge contract of `gdansk._core`).

The Python code is shallowly embedded: the per-view resource handler created
inside `Amber.tool` (fingerprint computation, render, and the HTML cache) is
modelled as pure state-passing functions over an explicit snapshot of the
three artifact files; the registration pipeline (`_normalize_page_input`,
`_resolve_page_candidates`, `_normalize_page_path_and_uri`, and the mutation
of `Amber._apps`) as functions over path segment lists; the lifecycle
(`__call__`, `_run_build_pipeline`, `_schedule_watcher_tasks`) as an event
trace; and `_AsyncThreadRunner` / `_shutdown_dev_tasks` as explicit state
transformers.  Async suspension and the per-view lock are modelled away:
every theorem here is about the sequential semantics of a single view's
handler, where each read observes one consistent snapshot of the filesystem.
-/

namespace Gdansk

/-- Error taxonomy of the embedded code: `invalidPath` stands for Python
`ValueError`, `fileNotFound` for `FileNotFoundError`.  Each carries the
formatted message the Python code raises. -/
inductive GdanskError where
  | invalidPath (msg : String)
  | fileNotFound (msg : String)
deriving DecidableEq, Repr

/-- One bundled artifact file on disk: its text content together with the
stat data (`st_mtime_ns`, `st_size`) the fingerprint reads.  The size is kept
as an independent field because the Python code obtains it from `stat`, not
from the decoded text. -/
structure ArtifactFile where
  content : String
  mtimeNs : Int
  sizeBytes : Nat
deriving DecidableEq, Repr

/-- Snapshot of the three artifact paths of one view (`client_path`,
`server_path`, `css_path` in `Amber.tool`): `none` means the file does not
exist on disk. -/
structure ViewFS where
  client : Option ArtifactFile
  server : Option ArtifactFile
  css : Option ArtifactFile
deriving DecidableEq, Repr

/-- One entry of the fingerprint tuple: `(kind tag, exists, st_mtime_ns,
st_size)` exactly as built by `_compute_fingerprint`. -/
structure FpEntry where
  tag : String
  present : Bool
  mtimeNs : Option Int
  sizeBytes : Option Nat
deriving DecidableEq, Repr

/-- The fingerprint is the ordered triple (client, server, css) of entries,
compared entrywise. -/
abbrev Fingerprint := FpEntry × FpEntry × FpEntry

/-- Static configuration captured by the resource handler closure in
`Amber.tool`: the original `page` argument (used in error messages), the
effective `ssr` flag, whether `page_spec.server` yielded a server path
(`server_path is not None`), and `Amber.cache_html`. -/
structure ViewCfg where
  page : String
  ssr : Bool
  hasServerPath : Bool
  cacheHtml : Bool
deriving DecidableEq, Repr

/-- Message raised when the client bundle is missing (or empty, in the render
path): mirrors the f-string in `_compute_fingerprint` / `_render_resource_html`. -/
def clientMissingMsg (page : String) : String :=
  "Client bundled output for " ++ page ++ " not found. Has the bundler been run?"

/-- Message raised when SSR is requested but the server bundle is missing. -/
def ssrMissingMsg (page : String) : String :=
  "SSR bundled output for " ++ page ++ " not found. Has the bundler been run?"

/-- The user-actionable hint both render-time messages end with. -/
def bundlerHint : String := "Has the bundler been run?"

/-- Embedding of `_compute_fingerprint` (core.py lines 319-352): requires the
client artifact to exist; requires the server artifact to exist when `ssr` is
on; records `(tag, exists, mtime, size)` for client, server and css. -/
def computeFingerprint (cfg : ViewCfg) (fs : ViewFS) : Except GdanskError Fingerprint :=
  match fs.client with
  | none => .error (.fileNotFound (clientMissingMsg cfg.page))
  | some cf =>
    let serverStep : Except GdanskError FpEntry :=
      if cfg.hasServerPath = false then
        if cfg.ssr then .error (.fileNotFound (ssrMissingMsg cfg.page))
        else .ok ⟨"server", false, none, none⟩
      else
        match fs.server with
        | none =>
          if cfg.ssr then .error (.fileNotFound (ssrMissingMsg cfg.page))
          else .ok ⟨"server", false, none, none⟩
        | some sf => .ok ⟨"server", true, some sf.mtimeNs, some sf.sizeBytes⟩
    match serverStep with
    | .error e => .error e
    | .ok sfp =>
      let cssFp : FpEntry :=
        match fs.css with
        | some f => ⟨"css", true, some f.mtimeNs, some f.sizeBytes⟩
        | none => ⟨"css", false, none, none⟩
      .ok (⟨"client", true, some cf.mtimeNs, some cf.sizeBytes⟩, sfp, cssFp)

/-- Type of the template renderer `ENV.render_template("template.html", js,
css, html, metadata)`: the metadata argument is a per-view constant and is
absorbed into the function.  Taking it as a parameter keeps the theorems
valid for every deterministic template. -/
abbrev TemplateFn := String → Option String → Option String → String

/-- Embedding of `_render_resource_html` (core.py lines 354-378).  Returns the
rendered HTML together with the number of Value Bridge (`run`) invocations
performed (0 or 1).  Mirrors Python truthiness: an empty client read raises
the MissingArtifact message; an empty server read skips `run`; a falsy `html`
under `ssr` raises the SSR MissingArtifact message. -/
def renderResourceHtml (cfg : ViewCfg) (tmpl : TemplateFn) (bridge : String → String)
    (fs : ViewFS) : Except GdanskError (String × Nat) :=
  match fs.client with
  | none => .error (.fileNotFound (clientMissingMsg cfg.page))
  | some cf =>
    if cf.content = "" then .error (.fileNotFound (clientMissingMsg cfg.page))
    else
      let server : Option String :=
        if cfg.hasServerPath then fs.server.map (fun f => f.content) else none
      let stepRun : Option String × Nat :=
        match server with
        | some s => if s = "" then (none, 0) else (some (bridge s), 1)
        | none => (none, 0)
      if (stepRun.1.getD "") = "" ∧ cfg.ssr then
        .error (.fileNotFound (ssrMissingMsg cfg.page))
      else
        .ok (tmpl cf.content (fs.css.map (fun f => f.content)) stepRun.1, stepRun.2)

/-- The mutable cache cell captured by the handler closure:
`cached_fingerprint` and `cached_html`. -/
structure CacheState where
  fp : Option Fingerprint
  html : Option String
deriving DecidableEq, Repr

/-- The cache-hit test `cached_fingerprint == fingerprint and cached_html is
not None`, returning the cached HTML on a hit. -/
def cacheHit (st : CacheState) (fp : Fingerprint) : Option String :=
  match st.fp, st.html with
  | some f, some h => if f = fp then some h else none
  | _, _ => none

/-- Result of one resource read: the served HTML, the cache cell afterwards,
and how many times `_render_resource_html` and the Value Bridge ran. -/
structure ReadOut where
  html : String
  state : CacheState
  renders : Nat
  bridgeCalls : Nat
deriving DecidableEq, Repr

/-- Embedding of the resource handler `_` registered in `Amber.tool`
(core.py lines 398-417): compute the fingerprint; fast-path cache hit when
caching is enabled; with caching disabled render fresh without touching the
cache; otherwise recompute the fingerprint under the lock, re-check the
cache, and on a miss render and store both cells.  The per-view lock is
modelled by sequential execution. -/
def resourceRead (cfg : ViewCfg) (tmpl : TemplateFn) (bridge : String → String)
    (fs : ViewFS) (st : CacheState) : Except GdanskError ReadOut :=
  match computeFingerprint cfg fs with
  | .error e => .error e
  | .ok fp =>
    match (if cfg.cacheHtml then cacheHit st fp else none) with
    | some h => .ok ⟨h, st, 0, 0⟩
    | none =>
      if cfg.cacheHtml = false then
        match renderResourceHtml cfg tmpl bridge fs with
        | .error e => .error e
        | .ok (h, n) => .ok ⟨h, st, 1, n⟩
      else
        match computeFingerprint cfg fs with
        | .error e => .error e
        | .ok fp2 =>
          match cacheHit st fp2 with
          | some h => .ok ⟨h, st, 0, 0⟩
          | none =>
            match renderResourceHtml cfg tmpl bridge fs with
            | .error e => .error e
            | .ok (h, n) => .ok ⟨h, ⟨some fp2, some h⟩, 1, n⟩

/-- Rendering of a relative path for the registration error messages, as
Python's str() of a Path: "." for the empty path, segments joined by "/". -/
def showPageParts (parts : List String) : String :=
  if parts = [] then "." else String.intercalate "/" parts

/-- Embedding of pathlib's `PurePath.suffix`: the final component's last
dot-extension, empty when the name has no dot, starts with its only dot, or
ends in a dot. -/
def pySuffix (name : String) : String :=
  let cs := name.toList
  match (cs.indexesOf '.').getLast? with
  | none => ""
  | some i => if 0 < i ∧ i + 1 < cs.length then String.mk (cs.drop i) else ""

/-- Embedding of pathlib's `PurePath.name`: the last component, or the empty
string for the empty path. -/
def pyName (parts : List String) : String := parts.getLast?.getD ""

/-- Embedding of `Amber._normalize_page_input` (core.py lines 170-186): a
page path is given as its absolute flag plus its parsed segment list.
Rejects absolute paths, traversal segments, and an `apps/` prefix. -/
def normalizePageInput (absolute : Bool) (parts : List String) :
    Except GdanskError (List String) :=
  if absolute then
    .error (.invalidPath ("The page (i.e. " ++ showPageParts parts ++ ") must be a relative path"))
  else if parts.any (fun p => p = "" ∨ p = "." ∨ p = "..") then
    .error (.invalidPath ("The page (i.e. " ++ showPageParts parts ++ ") must not contain traversal segments"))
  else if parts.head? = some "apps" then
    .error (.invalidPath ("The page (i.e. " ++ showPageParts parts ++ ") must not start with apps/"))
  else .ok parts

/-- Embedding of `Amber._resolve_page_candidates` (core.py lines 188-199): a
path with a suffix must be a correctly named `.tsx`/`.jsx` page file; a bare
directory yields the two candidates `page.tsx` then `page.jsx`, in order. -/
def resolvePageCandidates (parts : List String) :
    Except GdanskError (List (List String)) :=
  if pySuffix (pyName parts) ≠ "" then
    if pySuffix (pyName parts) ≠ ".tsx" ∧ pySuffix (pyName parts) ≠ ".jsx" then
      .error (.invalidPath ("The page (i.e. " ++ showPageParts parts ++ ") must be a .tsx or .jsx file"))
    else if pyName parts ≠ "page.tsx" ∧ pyName parts ≠ "page.jsx" then
      .error (.invalidPath ("The page (i.e. " ++ showPageParts parts ++ ") must match **/page.tsx or **/page.jsx and must not start with apps/"))
    else .ok [parts]
  else .ok [parts ++ ["page.tsx"], parts ++ ["page.jsx"]]

/-- Embedding of `Amber._normalize_page_path_and_uri` (core.py lines
201-216): a candidate needs at least two components, must not start with
`apps`, and must be named `page.tsx`/`page.jsx`; on success it yields the
normalized path, the bundler-facing path with the `apps` role prefix, and
the `ui://` resource address derived from the directory component. -/
def normalizePagePathAndUri (parts : List String) :
    Except GdanskError (List String × List String × String) :=
  if parts.length < 2 ∨ parts.head? = some "apps" ∨
      (pyName parts ≠ "page.tsx" ∧ pyName parts ≠ "page.jsx") then
    .error (.invalidPath ("The page (i.e. " ++ showPageParts parts ++ ") must match **/page.tsx or **/page.jsx and must not start with apps/"))
  else
    .ok (parts, "apps" :: parts, "ui://" ++ String.intercalate "/" parts.dropLast)

/-- The candidate loop of `Amber.tool` (core.py lines 286-291): normalize
each candidate in order and select the first whose bundler-facing path is a
file under `views`.  `isFile` is the disk oracle `(self.views / p).is_file()`. -/
def findBundlePage (isFile : List String → Bool) :
    List (List String) → Except GdanskError (Option (List String × String))
  | [] => .ok none
  | c :: rest =>
    match normalizePagePathAndUri c with
    | .error e => .error e
    | .ok (_, bp, uri) =>
      if isFile bp then .ok (some (bp, uri)) else findBundlePage isFile rest

/-- The not-found message of `Amber.tool` (core.py lines 293-301), which
names the candidates when the input was a bare directory. -/
def notFoundMsg (norm : List String) (cands : List (List String)) : String :=
  if cands.length = 1 then
    "The page (i.e. " ++ showPageParts norm ++ ") was not found"
  else
    "The page (i.e. " ++ showPageParts norm ++ ") was not found. Expected one of: "
      ++ showPageParts (cands.headD []) ++ ", " ++ showPageParts (cands.getD 1 [])

/-- The resolution phase of `Amber.tool` up to the disk check: everything
that can raise before `Amber._apps` is mutated. -/
def toolResolve (isFile : List String → Bool) (absolute : Bool) (parts : List String) :
    Except GdanskError (List String × String) :=
  match normalizePageInput absolute parts with
  | .error e => .error e
  | .ok norm =>
    match resolvePageCandidates norm with
    | .error e => .error e
    | .ok cands =>
      match findBundlePage isFile cands with
      | .error e => .error e
      | .ok (some r) => .ok r
      | .ok none => .error (.fileNotFound (notFoundMsg norm cands))

/-- The `Page` spec stored in `Amber._apps`: the bundler-facing path, the
`app=True` role flag, and the effective `ssr` flag (core.py line 304). -/
structure Page where
  path : List String
  app : Bool
  ssr : Bool
deriving DecidableEq, Repr

/-- The registry mutation of `Amber.tool` (core.py lines 305-307): drop every
registered page with the same canonical path, then insert the new one. -/
def registerPage (apps : List Page) (p : Page) : List Page :=
  apps.filter (fun q => ¬(q.path = p.path)) ++ [p]

/-- Outcome of one `Amber.tool` call: the resolution result (bundler path and
resource address) and the registry afterwards. -/
structure ToolOutcome where
  result : Except GdanskError (List String × String)
  apps : List Page
deriving Repr

/-- One `Amber.tool` call against registry `apps`: resolution errors leave
the registry untouched (the Python code raises before mutating `_apps`);
success registers `Page(path=bundle_page, app=True, ssr=ssr)`. -/
def toolStep (isFile : List String → Bool) (apps : List Page) (absolute : Bool)
    (parts : List String) (ssrFlag : Bool) : ToolOutcome :=
  match toolResolve isFile absolute parts with
  | .error e => ⟨.error e, apps⟩
  | .ok (bp, uri) => ⟨.ok (bp, uri), registerPage apps ⟨bp, true, ssrFlag⟩⟩

/-- Observable lifecycle events: a `bundle(...)` call, one plugin's one-shot
`build` hook, one plugin's `watch` hook being scheduled. -/
inductive LifeEvent where
  | bundleCall (dev : Bool)
  | pluginBuild (idx : Nat)
  | pluginWatch (idx : Nat)
deriving DecidableEq, Repr

/-- The plugin loop at the end of `Amber._run_build_pipeline` (core.py lines
141-142): each plugin's `build` hook runs in order; the first failure
propagates and stops the loop.  Each plugin's behaviour is given as its
`Except` outcome; the index only labels events. -/
def runPluginBuilds : List (Except String Unit) → Nat → List LifeEvent × Except String Unit
  | [], _ => ([], .ok ())
  | .error e :: _, i => ([.pluginBuild i], .error e)
  | .ok _ :: rest, i =>
    let next := runPluginBuilds rest (i + 1)
    (.pluginBuild i :: next.1, next.2)

/-- Embedding of `Amber._run_build_pipeline` (core.py lines 131-142): invoke
the Build Invoker once; in development mode return right after; in
production run every plugin's one-shot build hook. -/
def runBuildPipeline (dev : Bool) (bundleRes : Except String Unit)
    (pluginRes : List (Except String Unit)) : List LifeEvent × Except String Unit :=
  match bundleRes with
  | .error e => ([.bundleCall dev], .error e)
  | .ok _ =>
    if dev then ([.bundleCall dev], .ok ())
    else
      let next := runPluginBuilds pluginRes 0
      (.bundleCall dev :: next.1, next.2)

/-- Embedding of startup through `Amber.__call__` and `_lifespan` (core.py
lines 218-263): with no registered views the original app is returned and no
custom lifespan is installed, so neither the Build Invoker nor any plugin
hook ever runs; in development mode `_start_dev` schedules one watch task per
plugin and the background bundle task and readiness is immediate; in
production the build pipeline runs to completion and its failure propagates
out of startup.  The returned `Except` is `.ok` exactly when the instance
becomes ready. -/
def amberStart (dev : Bool) (views : List Page) (bundleRes : Except String Unit)
    (pluginRes : List (Except String Unit)) : List LifeEvent × Except String Unit :=
  if views.isEmpty then ([], .ok ())
  else if dev then
    ((List.range pluginRes.length).map LifeEvent.pluginWatch ++ [.bundleCall true], .ok ())
  else
    runBuildPipeline false bundleRes pluginRes

/-- State of `_AsyncThreadRunner`: whether `_loop` and `_thread` are set
(non-`None` with a live thread). -/
structure RunnerState where
  loopSet : Bool
  threadSet : Bool
deriving DecidableEq, Repr

/-- A freshly constructed, never-started runner. -/
def runnerInit : RunnerState := ⟨false, false⟩

/-- Embedding of `_AsyncThreadRunner.start` (core.py lines 43-49): a no-op
when the thread is already alive, else spawn the loop thread and wait. -/
def runnerStart (s : RunnerState) : RunnerState :=
  if s.threadSet then s else ⟨true, true⟩

/-- Embedding of `_AsyncThreadRunner.stop` (core.py lines 76-82): return
immediately when loop or thread is unset, else stop the loop, join the
thread, and clear both fields.  Totality of this function models that `stop`
never raises. -/
def runnerStop (s : RunnerState) : RunnerState :=
  if s.loopSet = false ∨ s.threadSet = false then s else ⟨false, false⟩

/-- State of one asyncio task: whether it has completed and whether
cancellation was requested. -/
structure TaskState where
  done : Bool
  cancelRequested : Bool
deriving DecidableEq, Repr

/-- The `if not task.done(): task.cancel()` step of `_shutdown_dev_tasks`. -/
def cancelTask (t : TaskState) : TaskState :=
  if t.done then t else ⟨t.done, true⟩

/-- Awaiting a task in `asyncio.gather(..., return_exceptions=True)` under
`suppress(CancelledError)`: the task finishes; cancellation and failures are
absorbed rather than raised. -/
def awaitTask (t : TaskState) : TaskState := ⟨true, t.cancelRequested⟩

/-- The dev-mode background machinery handed to `_shutdown_dev_tasks`: the
optional stop event (with its set flag), the optional bundle task, and the
watcher tasks. -/
structure DevTasks where
  stopEvent : Option Bool
  bundleTask : Option TaskState
  watcherTasks : List TaskState
deriving DecidableEq, Repr

/-- Embedding of `Amber._shutdown_dev_tasks` (core.py lines 153-168): set the
stop event when present, cancel every unfinished task, and await them all
with cancellation treated as expected.  Totality models that shutdown never
raises. -/
def shutdownDevTasks (d : DevTasks) : DevTasks :=
  { stopEvent := d.stopEvent.map (fun _ => true)
    bundleTask := d.bundleTask.map (fun t => awaitTask (cancelTask t))
    watcherTasks := d.watcherTasks.map (fun t => awaitTask (cancelTask t)) }

/-- Modelled from the spec: the script-level completion values of the Value
Bridge (`gdansk._core.run`, implemented in the native extension that is not
part of the Python sources).  Finite numbers are split into integral ones and
other finite ones (carried as a rational), with NaN and the infinities as
separate non-finite shapes; `undef`, symbols, arbitrary-precision integers
and unresolved asynchronous values are the remaining unsupported shapes. -/
inductive JSValue where
  | null
  | undef
  | boolean (b : Bool)
  | numInt (n : Int)
  | numFloat (q : ℚ)
  | nan
  | infPos
  | infNeg
  | str (s : String)
  | bigint (n : Int)
  | symbol (description : String)
  | promisePending
  | array (xs : List JSValue)
  | object (fields : List (String × JSValue))

/-- Modelled from the spec: the strictly-typed host values the Value Bridge
may produce (Python bool / int / float / str / list / dict / None). -/
inductive HostValue where
  | null
  | boolean (b : Bool)
  | integer (n : Int)
  | floating (q : ℚ)
  | str (s : String)
  | list (xs : List HostValue)
  | dict (fields : List (String × HostValue))

/-- Modelled from the spec: Value Bridge failures — a script-level exception
(`ExecutionError`, RuntimeError in the tests) or an unconvertible completion
value (`UnsupportedValueError`, ValueError in the tests). -/
inductive BridgeError where
  | executionError (msg : String)
  | unsupportedValue
deriving DecidableEq, Repr

mutual

/-- Modelled from the spec: the conversion rules of the Value Bridge
(`gdansk._core.run`, absent from the Python sources; behaviour pinned by
`__tests__/integration/test__core.py`).  boolean, integral number, other
finite number, string and null convert directly; arrays and plain
string-keyed objects convert recursively; every other shape fails with
`UnsupportedValueError`. -/
def convertValue : JSValue → Except BridgeError HostValue
  | .null => .ok .null
  | .boolean b => .ok (.boolean b)
  | .numInt n => .ok (.integer n)
  | .numFloat q => .ok (.floating q)
  | .str s => .ok (.str s)
  | .undef => .error .unsupportedValue
  | .nan => .error .unsupportedValue
  | .infPos => .error .unsupportedValue
  | .infNeg => .error .unsupportedValue
  | .bigint _ => .error .unsupportedValue
  | .symbol _ => .error .unsupportedValue
  | .promisePending => .error .unsupportedValue
  | .array xs =>
    match convertList xs with
    | .error e => .error e
    | .ok hs => .ok (.list hs)
  | .object fields =>
    match convertFields fields with
    | .error e => .error e
    | .ok hs => .ok (.dict hs)

/-- Elementwise, order-preserving conversion of an array's members. -/
def convertList : List JSValue → Except BridgeError (List HostValue)
  | [] => .ok []
  | x :: xs =>
    match convertValue x with
    | .error e => .error e
    | .ok h =>
      match convertList xs with
      | .error e => .error e
      | .ok hs => .ok (h :: hs)

/-- Order-preserving conversion of a plain object's string-keyed fields. -/
def convertFields : List (String × JSValue) → Except BridgeError (List (String × HostValue))
  | [] => .ok []
  | (k, v) :: fields =>
    match convertValue v with
    | .error e => .error e
    | .ok h =>
      match convertFields fields with
      | .error e => .error e
      | .ok hs => .ok ((k, h) :: hs)

end

/-- Modelled from the spec: one `run(programText)` call.  Script evaluation
in the isolated context is the oracle `evalProgram`; a script-level exception
becomes `ExecutionError`, otherwise the completion value is converted. -/
def runBridge (evalProgram : String → Except String JSValue) (prog : String) :
    Except BridgeError HostValue :=
  match evalProgram prog with
  | .error m => .error (.executionError m)
  | .ok v => convertValue v

/-- Modelled from the spec: a sequence of bridge calls.  Each call evaluates
in its own isolated context, so the session is the per-call map. -/
def runSession (evalProgram : String → Except String JSValue) (progs : List String) :
    List (Except BridgeError HostValue) :=
  progs.map (runBridge evalProgram)

/-- Claim C5: starting an Amber instance with zero registered views, in
either mode and with any configured plugins and any bundler behaviour,
produces no lifecycle events at all — the Build Invoker is never invoked and
no plugin build or watch hook runs — and the instance is trivially ready
(a running no-op). -/
theorem amberStart_zero_views_noop (dev : Bool) (bundleRes : Except String Unit)
    (pluginRes : List (Except String Unit)) :
    amberStart dev [] bundleRes pluginRes = ([], .ok ()) := rfl

/-- Claim C6: stopping is idempotent and total — `stop` on a never-started
runner changes nothing, a second `stop` is a no-op, a started-then-stopped
runner retains no loop or thread; and the dev shutdown path marks every stop
event set and leaves every bundle/watch task finished, with cancellation
absorbed (the shutdown functions are total, so no error can escape). -/
theorem runnerStop_idempotent_and_shutdown_quiescent :
    runnerStop runnerInit = runnerInit
    ∧ (∀ s, runnerStop (runnerStop s) = runnerStop s)
    ∧ runnerStop (runnerStart runnerInit) = runnerInit
    ∧ (∀ d, (shutdownDevTasks d).stopEvent = d.stopEvent.map (fun _ => true))
    ∧ (∀ d, ((shutdownDevTasks d).watcherTasks.all (fun t => t.done)) = true)
    ∧ (∀ d, (((shutdownDevTasks d).bundleTask.map (fun t => t.done)).getD true) = true) := by
  refine ⟨rfl, ?_, rfl, ?_, ?_, ?_⟩
  · intro s
    by_cases hl : s.loopSet = false ∨ s.threadSet = false
    · simp [runnerStop, hl]
    · simp [runnerStop, hl]
  · intro d
    rfl
  · intro d
    simp [shutdownDevTasks, awaitTask, List.all_eq_true]
  · intro d
    cases h : d.bundleTask <;> simp [shutdownDevTasks, awaitTask, h]

/-- Claim C8: with HTML caching disabled every read takes the render path and
bypasses the cache wholly — the result is the fingerprint check followed by a
fresh render (render counter 1) whose returned cache cell is the caller's
own, untouched cell, independent of anything stored in it. -/
theorem resourceRead_cache_disabled_bypasses_cache (page : String)
    (ssr hasServerPath : Bool) (tmpl : TemplateFn) (bridge : String → String)
    (fs : ViewFS) (st : CacheState) :
    resourceRead ⟨page, ssr, hasServerPath, false⟩ tmpl bridge fs st =
      (computeFingerprint ⟨page, ssr, hasServerPath, false⟩ fs).bind (fun _ =>
        (renderResourceHtml ⟨page, ssr, hasServerPath, false⟩ tmpl bridge fs).map
          (fun r => ⟨r.1, st, 1, r.2⟩)) := by
  cases hfp : computeFingerprint ⟨page, ssr, hasServerPath, false⟩ fs with
  | error e => simp [resourceRead, hfp, Except.bind]
  | ok fp =>
    cases hr : renderResourceHtml ⟨page, ssr, hasServerPath, false⟩ tmpl bridge fs with
    | error e => simp [resourceRead, hfp, hr, Except.bind, Except.map]
    | ok r => simp [resourceRead, hfp, hr, Except.bind, Except.map]

/-- After the registry mutation, the entries carrying the new page's path
are exactly the new page. -/
lemma registerPage_filter_eq (apps : List Page) (p : Page) :
    (registerPage apps p).filter (fun q => q.path = p.path) = [p] := by
  unfold registerPage
  rw [List.filter_append]
  have h1 : (apps.filter (fun q => ¬(q.path = p.path))).filter
      (fun q => q.path = p.path) = [] := by
    induction apps with
    | nil => rfl
    | cons a t ih =>
      by_cases h : a.path = p.path
      · simp [List.filter_cons, h, ih]
      · simp [List.filter_cons, h, ih]
  simp [h1, List.filter_cons]

/-- The registry mutation leaves every entry with a different path alone. -/
lemma registerPage_filter_ne (apps : List Page) (p : Page) :
    (registerPage apps p).filter (fun q => ¬(q.path = p.path)) =
      apps.filter (fun q => ¬(q.path = p.path)) := by
  unfold registerPage
  rw [List.filter_append]
  have h1 : (apps.filter (fun q => ¬(q.path = p.path))).filter
      (fun q => ¬(q.path = p.path)) = apps.filter (fun q => ¬(q.path = p.path)) := by
    induction apps with
    | nil => rfl
    | cons a t ih =>
      by_cases h : a.path = p.path
      · simp [List.filter_cons, h, ih]
      · simp [List.filter_cons, h, ih]
  simp [h1, List.filter_cons]

/-- Claim C2: when an `Amber.tool` call succeeds with canonical bundler path
`bp`, the registry afterwards holds exactly one `Page` for `bp` — the fresh
one, carrying the latest `ssr` flag — while entries for every other canonical
path are untouched; any previously registered entry for `bp` (whatever its
old `ssr` flag) is gone wholesale. -/
theorem toolStep_reregister_unique (isFile : List String → Bool) (apps : List Page)
    (absolute : Bool) (parts : List String) (ssrFlag : Bool) (bp : List String)
    (uri : String)
    (h : (toolStep isFile apps absolute parts ssrFlag).result = .ok (bp, uri)) :
    (toolStep isFile apps absolute parts ssrFlag).apps.filter
        (fun q => q.path = bp) = [⟨bp, true, ssrFlag⟩]
    ∧ (toolStep isFile apps absolute parts ssrFlag).apps.filter
        (fun q => ¬(q.path = bp)) = apps.filter (fun q => ¬(q.path = bp)) := by
  cases hres : toolResolve isFile absolute parts with
  | error e => simp [toolStep, hres] at h
  | ok r =>
    obtain ⟨bp', uri'⟩ := r
    simp only [toolStep, hres, Except.ok.injEq, Prod.mk.injEq] at h
    obtain ⟨hbp, -⟩ := h
    subst hbp
    simp only [toolStep, hres]
    exact ⟨registerPage_filter_eq apps ⟨bp', true, ssrFlag⟩,
      registerPage_filter_ne apps ⟨bp', true, ssrFlag⟩⟩

/-- Witness for C2: re-registering `simple/page.tsx` (already present with
`ssr = false`) with `ssr = true` leaves exactly the one fresh entry for the
canonical path `apps/simple/page.tsx`. -/
theorem toolStep_reregister_unique_witness :
    (toolStep (fun l => l == ["apps", "simple", "page.tsx"])
        [⟨["apps", "simple", "page.tsx"], true, false⟩] false
        ["simple", "page.tsx"] true).apps.filter
        (fun q => q.path = ["apps", "simple", "page.tsx"]) =
      [⟨["apps", "simple", "page.tsx"], true, true⟩]
    ∧ (toolStep (fun l => l == ["apps", "simple", "page.tsx"])
        [⟨["apps", "simple", "page.tsx"], true, false⟩] false
        ["simple", "page.tsx"] true).apps.filter
        (fun q => ¬(q.path = ["apps", "simple", "page.tsx"])) =
      [⟨["apps", "simple", "page.tsx"], true, false⟩].filter
        (fun q => ¬(q.path = ["apps", "simple", "page.tsx"])) :=
  toolStep_reregister_unique _ _ _ _ _ _ "ui://simple" rfl

/-- The plugin build loop succeeds exactly when every plugin's one-shot
build hook succeeds. -/
lemma runPluginBuilds_ok_iff (l : List (Except String Unit)) (i : Nat) :
    (runPluginBuilds l i).2 = .ok () ↔ ∀ r ∈ l, r = .ok () := by
  induction l generalizing i with
  | nil => simp [runPluginBuilds]
  | cons r rest ih =>
    cases r with
    | error e => simp [runPluginBuilds]
    | ok u => cases u; simpa [runPluginBuilds] using ih (i + 1)

/-- The plugin build loop never emits a Build Invoker event. -/
lemma runPluginBuilds_count_bundle (l : List (Except String Unit)) (i : Nat)
    (d : Bool) : (runPluginBuilds l i).1.count (LifeEvent.bundleCall d) = 0 := by
  induction l generalizing i with
  | nil => simp [runPluginBuilds]
  | cons r rest ih =>
    cases r with
    | error e => simp [runPluginBuilds]
    | ok u => cases u; simp [runPluginBuilds, ih (i + 1)]

/-- When every plugin build succeeds, the loop visits every plugin in order. -/
lemma runPluginBuilds_events_of_ok (l : List (Except String Unit)) (i : Nat)
    (h : ∀ r ∈ l, r = .ok ()) :
    (runPluginBuilds l i).1 = (List.range' i l.length).map LifeEvent.pluginBuild := by
  induction l generalizing i with
  | nil => simp [runPluginBuilds]
  | cons r rest ih =>
    have hr : r = .ok () := h r (List.mem_cons_self r rest)
    subst hr
    have := ih (i + 1) (fun r hm => h r (List.mem_cons_of_mem _ hm))
    simp [runPluginBuilds, this, List.range'_succ]

/-- Claim C4: production startup with at least one registered view invokes
the Build Invoker exactly once; readiness (an `.ok` outcome) is granted
exactly when the bundle call and every plugin's one-shot build hook succeed,
in which case the event trace is the bundle call followed by every plugin
build hook in order; and a failing bundle call propagates its error out of
startup with no plugin hook having run — no partial readiness. -/
theorem amberStart_prod_build_then_plugins (views : List Page)
    (bundleRes : Except String Unit) (pluginRes : List (Except String Unit))
    (h : ¬(views = [])) :
    (amberStart false views bundleRes pluginRes).1.count (LifeEvent.bundleCall false) = 1
    ∧ ((amberStart false views bundleRes pluginRes).2 = .ok () ↔
        bundleRes = .ok () ∧ ∀ r ∈ pluginRes, r = .ok ())
    ∧ ((amberStart false views bundleRes pluginRes).2 = .ok () →
        (amberStart false views bundleRes pluginRes).1 =
          LifeEvent.bundleCall false ::
            (List.range pluginRes.length).map LifeEvent.pluginBuild)
    ∧ (∀ e, bundleRes = .error e →
        (amberStart false views bundleRes pluginRes).2 = .error e
        ∧ (amberStart false views bundleRes pluginRes).1 = [LifeEvent.bundleCall false]) := by
  have hne : views.isEmpty = false := by
    cases views with
    | nil => exact absurd rfl h
    | cons a t => rfl
  cases bundleRes with
  | error e =>
    refine ⟨?_, ?_, ?_, ?_⟩
    · simp [amberStart, hne, runBuildPipeline]
    · simp [amberStart, hne, runBuildPipeline]
    · simp [amberStart, hne, runBuildPipeline]
    · intro e' he'
      have : e' = e := by simpa using he'.symm
      subst this
      simp [amberStart, hne, runBuildPipeline]
  | ok u =>
    cases u
    refine ⟨?_, ?_, ?_, ?_⟩
    · simp [amberStart, hne, runBuildPipeline,
        runPluginBuilds_count_bundle pluginRes 0 false]
    · simpa [amberStart, hne, runBuildPipeline] using
        runPluginBuilds_ok_iff pluginRes 0
    · intro hok
      have hall : ∀ r ∈ pluginRes, r = .ok () := by
        have := (runPluginBuilds_ok_iff pluginRes 0).mp
        apply this
        simpa [amberStart, hne, runBuildPipeline] using hok
      have := runPluginBuilds_events_of_ok pluginRes 0 hall
      simp [amberStart, hne, runBuildPipeline, this, List.range_eq_range']
    · intro e' he'
      exact absurd he' (by simp)

/-- Witness for C4 at one registered view and one succeeding plugin: the
trace is exactly the single bundle call followed by the plugin's build hook,
and the instance becomes ready. -/
theorem amberStart_prod_build_then_plugins_witness :
    (amberStart false [⟨["apps", "simple", "page.tsx"], true, false⟩]
        (.ok ()) [.ok ()]).1.count (LifeEvent.bundleCall false) = 1
    ∧ ((amberStart false [⟨["apps", "simple", "page.tsx"], true, false⟩]
        (.ok ()) [.ok ()]).2 = .ok () ↔
        (.ok () : Except String Unit) = .ok ()
          ∧ ∀ r ∈ [(.ok () : Except String Unit)], r = .ok ()) :=
  have h := amberStart_prod_build_then_plugins
    [⟨["apps", "simple", "page.tsx"], true, false⟩] (.ok ()) [.ok ()] (by simp)
  ⟨h.1, h.2.1⟩

/-- The client-missing message ends in the user-actionable hint. -/
lemma clientMissingMsg_ends_with_hint (page : String) :
    ∃ pre, clientMissingMsg page = pre ++ bundlerHint :=
  ⟨"Client bundled output for " ++ page ++ " not found. ", by
    rw [clientMissingMsg, bundlerHint, String.append_assoc, String.append_assoc]
    rfl⟩

/-- The SSR-missing message ends in the user-actionable hint. -/
lemma ssrMissingMsg_ends_with_hint (page : String) :
    ∃ pre, ssrMissingMsg page = pre ++ bundlerHint :=
  ⟨"SSR bundled output for " ++ page ++ " not found. ", by
    rw [ssrMissingMsg, bundlerHint, String.append_assoc, String.append_assoc]
    rfl⟩

/-- With the client artifact absent, the fingerprint step fails with the
client MissingArtifact message. -/
lemma computeFingerprint_client_missing (cfg : ViewCfg) (fs : ViewFS)
    (h : fs.client = none) :
    computeFingerprint cfg fs = .error (.fileNotFound (clientMissingMsg cfg.page)) := by
  simp [computeFingerprint, h]

/-- With SSR requested and the server artifact absent (no server path, or the
file missing on disk), the fingerprint step fails with the SSR
MissingArtifact message. -/
lemma computeFingerprint_ssr_missing (cfg : ViewCfg) (fs : ViewFS) (cf : ArtifactFile)
    (hc : fs.client = some cf) (hssr : cfg.ssr = true)
    (hs : cfg.hasServerPath = false ∨ fs.server = none) :
    computeFingerprint cfg fs = .error (.fileNotFound (ssrMissingMsg cfg.page)) := by
  cases hs with
  | inl hp => simp [computeFingerprint, hc, hp, hssr]
  | inr hn =>
    by_cases hp : cfg.hasServerPath = false
    · simp [computeFingerprint, hc, hp, hssr]
    · simp [computeFingerprint, hc, hp, hn, hssr]

/-- A fingerprint failure propagates out of the resource read unchanged. -/
lemma resourceRead_fingerprint_error (cfg : ViewCfg) (tmpl : TemplateFn)
    (bridge : String → String) (fs : ViewFS) (st : CacheState) (e : GdanskError)
    (h : computeFingerprint cfg fs = .error e) :
    resourceRead cfg tmpl bridge fs st = .error e := by
  simp [resourceRead, h]

/-- Claim C3: reading a view's resource with the client bundled artifact
absent — or, when SSR is requested, with the server bundled artifact absent —
fails with a MissingArtifact `FileNotFoundError` whose message ends in the
"Has the bundler been run?" hint; the read returns no partial output (its
result is the error, not a render). -/
theorem resourceRead_missing_artifact_fails (page : String)
    (ssr hasServerPath cacheHtml : Bool) (tmpl : TemplateFn)
    (bridge : String → String) (fs : ViewFS) (st : CacheState)
    (h : fs.client = none ∨ (ssr = true ∧ (hasServerPath = false ∨ fs.server = none))) :
    ∃ m, resourceRead ⟨page, ssr, hasServerPath, cacheHtml⟩ tmpl bridge fs st =
        .error (.fileNotFound m)
      ∧ ∃ pre, m = pre ++ bundlerHint := by
  cases h with
  | inl hc =>
    exact ⟨clientMissingMsg page,
      resourceRead_fingerprint_error _ tmpl bridge fs st _
        (computeFingerprint_client_missing _ fs hc),
      clientMissingMsg_ends_with_hint page⟩
  | inr hr =>
    obtain ⟨hssr, hs⟩ := hr
    cases hc : fs.client with
    | none =>
      exact ⟨clientMissingMsg page,
        resourceRead_fingerprint_error _ tmpl bridge fs st _
          (computeFingerprint_client_missing _ fs hc),
        clientMissingMsg_ends_with_hint page⟩
    | some cf =>
      exact ⟨ssrMissingMsg page,
        resourceRead_fingerprint_error _ tmpl bridge fs st _
          (computeFingerprint_ssr_missing _ fs cf hc hssr hs),
        ssrMissingMsg_ends_with_hint page⟩

/-- Witness for C3: an SSR view read before any build (no artifacts on disk)
fails with a MissingArtifact error carrying the bundler hint. -/
theorem resourceRead_missing_artifact_fails_witness :
    ∃ m, resourceRead ⟨"simple/app.tsx", true, false, true⟩
        (fun js _ _ => js) (fun s => s) ⟨none, none, none⟩ ⟨none, none⟩ =
        .error (.fileNotFound m)
      ∧ ∃ pre, m = pre ++ bundlerHint :=
  resourceRead_missing_artifact_fails "simple/app.tsx" true false true
    (fun js _ _ => js) (fun s => s) ⟨none, none, none⟩ ⟨none, none⟩ (Or.inl rfl)

/-- With SSR off, an existing client artifact is all the fingerprint needs:
it only stats files and never reads their content. -/
lemma computeFingerprint_ok_of_client_present (cfg : ViewCfg) (fs : ViewFS)
    (cf : ArtifactFile) (hc : fs.client = some cf) (hssr : cfg.ssr = false) :
    ∃ fp, computeFingerprint cfg fs = .ok fp := by
  by_cases hp : cfg.hasServerPath = false
  · simp [computeFingerprint, hc, hp, hssr]
  · cases hs : fs.server with
    | none => simp [computeFingerprint, hc, hp, hs, hssr]
    | some sf => simp [computeFingerprint, hc, hp, hs]

/-- Claim C10: a client artifact that exists on disk but reads back empty is
treated by the render exactly like an absent artifact — the render fails with
the client MissingArtifact `FileNotFoundError` (bundler hint included) rather
than serving a page with empty script content — even though the fingerprint
step, which only checks existence and stat data, succeeds (witnessed here
with SSR off); a read against a fresh cache therefore fails the same way. -/
theorem renderResourceHtml_empty_client_is_missing (page : String)
    (ssr hasServerPath cacheHtml : Bool) (tmpl : TemplateFn)
    (bridge : String → String) (fs : ViewFS) (cf : ArtifactFile)
    (hc : fs.client = some cf) (hempty : cf.content = "") :
    renderResourceHtml ⟨page, ssr, hasServerPath, cacheHtml⟩ tmpl bridge fs =
      .error (.fileNotFound (clientMissingMsg page))
    ∧ (ssr = false → ∃ fp,
        computeFingerprint ⟨page, ssr, hasServerPath, cacheHtml⟩ fs = .ok fp)
    ∧ (ssr = false →
        resourceRead ⟨page, ssr, hasServerPath, cacheHtml⟩ tmpl bridge fs ⟨none, none⟩ =
          .error (.fileNotFound (clientMissingMsg page))) := by
  have hrender : renderResourceHtml ⟨page, ssr, hasServerPath, cacheHtml⟩ tmpl bridge fs =
      .error (.fileNotFound (clientMissingMsg page)) := by
    simp [renderResourceHtml, hc, hempty]
  refine ⟨hrender, ?_, ?_⟩
  · intro hssr
    exact computeFingerprint_ok_of_client_present _ fs cf hc hssr
  · intro hssr
    subst hssr
    cases cacheHtml with
    | false =>
      obtain ⟨fp, hfp⟩ := computeFingerprint_ok_of_client_present
        ⟨page, false, hasServerPath, false⟩ fs cf hc rfl
      simp [resourceRead, hfp, cacheHit, hrender]
    | true =>
      obtain ⟨fp, hfp⟩ := computeFingerprint_ok_of_client_present
        ⟨page, false, hasServerPath, true⟩ fs cf hc rfl
      simp [resourceRead, hfp, cacheHit, hrender]

/-- Witness for C10: an empty `client.js` on disk makes the render, and a
fresh read, fail with the client MissingArtifact message while the
fingerprint step succeeds. -/
theorem renderResourceHtml_empty_client_is_missing_witness :
    renderResourceHtml ⟨"simple/app.tsx", false, false, true⟩
        (fun js _ _ => js) (fun s => s) ⟨some ⟨"", 7, 0⟩, none, none⟩ =
      .error (.fileNotFound (clientMissingMsg "simple/app.tsx"))
    ∧ (false = false → ∃ fp,
        computeFingerprint ⟨"simple/app.tsx", false, false, true⟩
          ⟨some ⟨"", 7, 0⟩, none, none⟩ = .ok fp)
    ∧ (false = false →
        resourceRead ⟨"simple/app.tsx", false, false, true⟩ (fun js _ _ => js)
          (fun s => s) ⟨some ⟨"", 7, 0⟩, none, none⟩ ⟨none, none⟩ =
          .error (.fileNotFound (clientMissingMsg "simple/app.tsx"))) :=
  renderResourceHtml_empty_client_is_missing "simple/app.tsx" false false true
    (fun js _ _ => js) (fun s => s) ⟨some ⟨"", 7, 0⟩, none, none⟩ ⟨"", 7, 0⟩ rfl rfl

/-- A successful render performs at most one Value Bridge invocation. -/
lemma renderResourceHtml_calls_le_one (cfg : ViewCfg) (tmpl : TemplateFn)
    (bridge : String → String) (fs : ViewFS) (h : String) (n : Nat)
    (hr : renderResourceHtml cfg tmpl bridge fs = .ok (h, n)) : n ≤ 1 := by
  cases hc : fs.client with
  | none => simp [renderResourceHtml, hc] at hr
  | some cf =>
    by_cases he : cf.content = ""
    · simp [renderResourceHtml, hc, he] at hr
    · by_cases hp : cfg.hasServerPath
      · cases hsv : fs.server with
        | none =>
          by_cases hssr : cfg.ssr
          · simp [renderResourceHtml, hc, he, hp, hsv, hssr] at hr
          · simp [renderResourceHtml, hc, he, hp, hsv, hssr] at hr
            omega
        | some sf =>
          by_cases hes : sf.content = ""
          · by_cases hssr : cfg.ssr
            · simp [renderResourceHtml, hc, he, hp, hsv, hes, hssr] at hr
            · simp [renderResourceHtml, hc, he, hp, hsv, hes, hssr] at hr
              omega
          · by_cases hssr : cfg.ssr
            · by_cases hb : bridge sf.content = ""
              · simp [renderResourceHtml, hc, he, hp, hsv, hes, hssr, hb] at hr
              · simp [renderResourceHtml, hc, he, hp, hsv, hes, hssr, hb] at hr
                omega
            · simp [renderResourceHtml, hc, he, hp, hsv, hes, hssr] at hr
              omega
      · by_cases hssr : cfg.ssr
        · simp [renderResourceHtml, hc, he, hp, hssr] at hr
        · simp [renderResourceHtml, hc, he, hp, hssr] at hr
          omega

/-- Claim C1: with caching enabled, after any successful read of a view a
second read over an unchanged filesystem snapshot (hence an equal
fingerprint) is served from the cache by the fast-path fingerprint
comparison: it returns the identical HTML, performs no render and no Value
Bridge call, and leaves the cache cell as it was; the first read performed at
most one render and at most one bridge call, so across both reads the Value
Bridge ran at most once. -/
theorem resourceRead_unchanged_cached_once (page : String) (ssr hasServerPath : Bool)
    (tmpl : TemplateFn) (bridge : String → String) (fs : ViewFS) (st : CacheState)
    (r : ReadOut)
    (h : resourceRead ⟨page, ssr, hasServerPath, true⟩ tmpl bridge fs st = .ok r) :
    resourceRead ⟨page, ssr, hasServerPath, true⟩ tmpl bridge fs r.state =
      .ok ⟨r.html, r.state, 0, 0⟩
    ∧ r.renders ≤ 1 ∧ r.bridgeCalls ≤ 1 := by
  obtain ⟨rh, rst, rr, rb⟩ := r
  cases hfp : computeFingerprint ⟨page, ssr, hasServerPath, true⟩ fs with
  | error e => simp [resourceRead, hfp] at h
  | ok fp =>
    cases hhit : cacheHit st fp with
    | some h0 =>
      simp [resourceRead, hfp, hhit] at h
      obtain ⟨h1, h2, h3, h4⟩ := h
      subst h1; subst h2; subst h3; subst h4
      refine ⟨?_, by simp, by simp⟩
      simp [resourceRead, hfp, hhit]
    | none =>
      cases hrd : renderResourceHtml ⟨page, ssr, hasServerPath, true⟩ tmpl bridge fs with
      | error e => simp [resourceRead, hfp, hhit, hrd] at h
      | ok pr =>
        obtain ⟨h0, n⟩ := pr
        simp [resourceRead, hfp, hhit, hrd] at h
        obtain ⟨h1, h2, h3, h4⟩ := h
        subst h1; subst h2; subst h3; subst h4
        refine ⟨?_, by simp,
          by simpa using renderResourceHtml_calls_le_one _ tmpl bridge fs h0 n hrd⟩
        simp [resourceRead, hfp, cacheHit]

/-- Witness for C1: a first read over a fresh cache renders once without any
bridge call; the second read over the unchanged snapshot is a pure cache
hit returning the identical output. -/
theorem resourceRead_unchanged_cached_once_witness :
    resourceRead ⟨"p", false, false, true⟩ (fun js _ _ => js) (fun s => s)
        ⟨some ⟨"js", 0, 2⟩, none, none⟩
        (ReadOut.mk "js" ⟨some (⟨"client", true, some 0, some 2⟩,
          ⟨"server", false, none, none⟩, ⟨"css", false, none, none⟩), some "js"⟩ 1 0).state =
      .ok ⟨(ReadOut.mk "js" ⟨some (⟨"client", true, some 0, some 2⟩,
          ⟨"server", false, none, none⟩, ⟨"css", false, none, none⟩), some "js"⟩ 1 0).html,
        (ReadOut.mk "js" ⟨some (⟨"client", true, some 0, some 2⟩,
          ⟨"server", false, none, none⟩, ⟨"css", false, none, none⟩), some "js"⟩ 1 0).state, 0, 0⟩
    ∧ (ReadOut.mk "js" ⟨some (⟨"client", true, some 0, some 2⟩,
        ⟨"server", false, none, none⟩, ⟨"css", false, none, none⟩), some "js"⟩ 1 0).renders ≤ 1
    ∧ (ReadOut.mk "js" ⟨some (⟨"client", true, some 0, some 2⟩,
        ⟨"server", false, none, none⟩, ⟨"css", false, none, none⟩), some "js"⟩ 1 0).bridgeCalls ≤ 1 :=
  resourceRead_unchanged_cached_once "p" false false (fun js _ _ => js) (fun s => s)
    ⟨some ⟨"js", 0, 2⟩, none, none⟩ ⟨none, none⟩ _ rfl

/-- Claim C9 (spec-modelled, `run` lives in the native `gdansk._core`
extension): the Value Bridge converts completion values exactly per the
fixed rules — boolean, integral finite number, other finite number, exact
string, and null convert directly; arrays convert to ordered lists and plain
string-keyed objects to mappings, both recursively, with empty containers
supported; every other shape (undefined, NaN, the infinities, BigInt,
Symbol, an unresolved Promise) fails with `UnsupportedValueError`; and a
later call's outcome is independent of the calls before it, so the bridge
stays usable after a failure. -/
theorem convertValue_conversion_rules :
    (∀ b, convertValue (.boolean b) = .ok (.boolean b))
    ∧ (∀ n : Int, convertValue (.numInt n) = .ok (.integer n))
    ∧ (∀ q : ℚ, convertValue (.numFloat q) = .ok (.floating q))
    ∧ (∀ s, convertValue (.str s) = .ok (.str s))
    ∧ convertValue .null = .ok .null
    ∧ (∀ xs, convertValue (.array xs) = (convertList xs).map HostValue.list)
    ∧ (∀ x xs, convertList (x :: xs) =
        (convertValue x).bind (fun h => (convertList xs).map (fun hs => h :: hs)))
    ∧ (∀ fields, convertValue (.object fields) = (convertFields fields).map HostValue.dict)
    ∧ (∀ k v fields, convertFields ((k, v) :: fields) =
        (convertValue v).bind (fun h => (convertFields fields).map (fun hs => (k, h) :: hs)))
    ∧ convertValue (.array []) = .ok (.list [])
    ∧ convertValue (.object []) = .ok (.dict [])
    ∧ convertValue .undef = .error .unsupportedValue
    ∧ convertValue .nan = .error .unsupportedValue
    ∧ convertValue .infPos = .error .unsupportedValue
    ∧ convertValue .infNeg = .error .unsupportedValue
    ∧ (∀ n, convertValue (.bigint n) = .error .unsupportedValue)
    ∧ (∀ d, convertValue (.symbol d) = .error .unsupportedValue)
    ∧ convertValue .promisePending = .error .unsupportedValue
    ∧ (∀ evalProgram ps p, runSession evalProgram (ps ++ [p]) =
        runSession evalProgram ps ++ [runBridge evalProgram p]) := by
  refine ⟨fun b => rfl, fun n => rfl, fun q => rfl, fun s => rfl, rfl,
    ?_, ?_, ?_, ?_, rfl, rfl, rfl, rfl, rfl, rfl, fun n => rfl, fun d => rfl, rfl, ?_⟩
  · intro xs
    rw [convertValue]
    cases convertList xs <;> rfl
  · intro x xs
    rw [convertList]
    cases convertValue x with
    | error e => rfl
    | ok h => cases convertList xs <;> rfl
  · intro fields
    rw [convertValue]
    cases convertFields fields <;> rfl
  · intro k v fields
    rw [convertFields]
    cases convertValue v with
    | error e => rfl
    | ok h => cases convertFields fields <;> rfl
  · intro evalProgram ps p
    simp [runSession]

/-- A candidate path with at least two components, a non-`apps` head and a
proper `page.tsx`/`page.jsx` name normalizes successfully to its bundler
path and resource address. -/
lemma normalizePagePathAndUri_ok (parts : List String) (hlen : 2 ≤ parts.length)
    (happs : ¬(parts.head? = some "apps"))
    (hname : pyName parts = "page.tsx" ∨ pyName parts = "page.jsx") :
    normalizePagePathAndUri parts =
      .ok (parts, "apps" :: parts, "ui://" ++ String.intercalate "/" parts.dropLast) := by
  have hcond : ¬(parts.length < 2 ∨ parts.head? = some "apps" ∨
      (pyName parts ≠ "page.tsx" ∧ pyName parts ≠ "page.jsx")) := by
    push_neg
    refine ⟨by omega, happs, ?_⟩
    intro hne
    cases hname with
    | inl h => exact absurd h hne
    | inr h => exact h
  simp [normalizePagePathAndUri, hcond]

/-- Appending a file name to a nonempty directory path keeps its head. -/
lemma head?_append_singleton (parts : List String) (hne : parts ≠ []) (x : String) :
    (parts ++ [x]).head? = parts.head? := by
  cases parts with
  | nil => exact absurd rfl hne
  | cons p0 rest => rfl

/-- The name of a directory path with a file name appended is that file name. -/
lemma pyName_append_singleton (parts : List String) (x : String) :
    pyName (parts ++ [x]) = x := by
  simp [pyName, List.getLast?_concat]

/-- A `page.tsx`/`page.jsx` candidate built from a nonempty, non-`apps`
directory normalizes successfully; its resource address comes from the
directory component. -/
lemma candidate_normalize (parts : List String) (hne : parts ≠ [])
    (happs : ¬(parts.head? = some "apps")) (x : String)
    (hx : x = "page.tsx" ∨ x = "page.jsx") :
    normalizePagePathAndUri (parts ++ [x]) =
      .ok (parts ++ [x], "apps" :: (parts ++ [x]),
        "ui://" ++ String.intercalate "/" parts) := by
  have hlen : 2 ≤ (parts ++ [x]).length := by
    cases parts with
    | nil => exact absurd rfl hne
    | cons p0 rest => simp
  have happs' : ¬((parts ++ [x]).head? = some "apps") := by
    rw [head?_append_singleton parts hne x]; exact happs
  have hname : pyName (parts ++ [x]) = "page.tsx" ∨ pyName (parts ++ [x]) = "page.jsx" := by
    rw [pyName_append_singleton]; exact hx
  have := normalizePagePathAndUri_ok (parts ++ [x]) hlen happs' hname
  rwa [List.dropLast_concat] at this

/-- Claim C7: for every `Amber.tool` call — an absolute path is rejected with
InvalidPath; a relative path containing a traversal segment is rejected with
InvalidPath; a clean nonempty bare directory resolves by trying `page.tsx`
then `page.jsx` in that order and, with neither candidate on disk, fails
FileNotFound; a path whose suffix or file name violates the naming rule is
rejected with InvalidPath; a properly named page file with fewer than two
components (or the empty path, whose candidates lack the required parent
directory) violates the location rule and is rejected with InvalidPath; a
properly named and located page file absent from disk fails FileNotFound;
and every rejection leaves the set of registered Views unchanged. -/
theorem toolStep_validation (isFile : List String → Bool) (apps : List Page)
    (absolute : Bool) (parts : List String) (ssrFlag : Bool) :
    (∀ e, (toolStep isFile apps absolute parts ssrFlag).result = .error e →
        (toolStep isFile apps absolute parts ssrFlag).apps = apps)
    ∧ (absolute = true →
        (toolStep isFile apps absolute parts ssrFlag).result =
          .error (.invalidPath ("The page (i.e. " ++ showPageParts parts ++ ") must be a relative path")))
    ∧ (absolute = false → ".." ∈ parts →
        ∃ m, (toolStep isFile apps absolute parts ssrFlag).result = .error (.invalidPath m))
    ∧ (absolute = false → ¬(∃ x ∈ parts, x = "" ∨ x = "." ∨ x = "..") →
        ¬(parts.head? = some "apps") → pySuffix (pyName parts) = "" → parts ≠ [] →
        (isFile ("apps" :: (parts ++ ["page.tsx"])) = true →
          (toolStep isFile apps absolute parts ssrFlag).result =
            .ok ("apps" :: (parts ++ ["page.tsx"]), "ui://" ++ String.intercalate "/" parts))
        ∧ (isFile ("apps" :: (parts ++ ["page.tsx"])) = false →
           isFile ("apps" :: (parts ++ ["page.jsx"])) = true →
          (toolStep isFile apps absolute parts ssrFlag).result =
            .ok ("apps" :: (parts ++ ["page.jsx"]), "ui://" ++ String.intercalate "/" parts))
        ∧ (isFile ("apps" :: (parts ++ ["page.tsx"])) = false →
           isFile ("apps" :: (parts ++ ["page.jsx"])) = false →
          ∃ m, (toolStep isFile apps absolute parts ssrFlag).result = .error (.fileNotFound m)))
    ∧ (absolute = false → ¬(∃ x ∈ parts, x = "" ∨ x = "." ∨ x = "..") →
        ¬(parts.head? = some "apps") → pySuffix (pyName parts) ≠ "" →
        ((pySuffix (pyName parts) ≠ ".tsx" ∧ pySuffix (pyName parts) ≠ ".jsx")
          ∨ (pyName parts ≠ "page.tsx" ∧ pyName parts ≠ "page.jsx")) →
        ∃ m, (toolStep isFile apps absolute parts ssrFlag).result = .error (.invalidPath m))
    ∧ (absolute = false → ¬(∃ x ∈ parts, x = "" ∨ x = "." ∨ x = "..") →
        ¬(parts.head? = some "apps") →
        (pyName parts = "page.tsx" ∨ pyName parts = "page.jsx") → parts.length < 2 →
        ∃ m, (toolStep isFile apps absolute parts ssrFlag).result = .error (.invalidPath m))
    ∧ (absolute = false → ¬(∃ x ∈ parts, x = "" ∨ x = "." ∨ x = "..") →
        ¬(parts.head? = some "apps") →
        (pyName parts = "page.tsx" ∨ pyName parts = "page.jsx") → 2 ≤ parts.length →
        isFile ("apps" :: parts) = false →
        (toolStep isFile apps absolute parts ssrFlag).result =
          .error (.fileNotFound (notFoundMsg parts [parts])))
    ∧ (absolute = false → parts = [] →
        ∃ m, (toolStep isFile apps absolute parts ssrFlag).result = .error (.invalidPath m)) := by
  refine ⟨?_, ?_, ?_, ?_, ?_, ?_, ?_, ?_⟩
  · intro e he
    cases htr : toolResolve isFile absolute parts with
    | error e' => simp [toolStep, htr]
    | ok r =>
      obtain ⟨bp, uri⟩ := r
      simp [toolStep, htr] at he
  · intro habs
    subst habs
    simp [toolStep, toolResolve, normalizePageInput]
  · intro habs hmem
    subst habs
    have hex : ∃ x ∈ parts, x = "" ∨ x = "." ∨ x = ".." := ⟨"..", hmem, by simp⟩
    exact ⟨"The page (i.e. " ++ showPageParts parts ++ ") must not contain traversal segments",
      by simp [toolStep, toolResolve, normalizePageInput, hex]⟩
  · intro habs hclean happs hdir hne
    subst habs
    have hnorm : normalizePageInput false parts = .ok parts := by
      simp [normalizePageInput, hclean, happs]
    have hcands : resolvePageCandidates parts =
        .ok [parts ++ ["page.tsx"], parts ++ ["page.jsx"]] := by
      simp [resolvePageCandidates, hdir]
    have hc1 := candidate_normalize parts hne happs "page.tsx" (Or.inl rfl)
    have hc2 := candidate_normalize parts hne happs "page.jsx" (Or.inr rfl)
    refine ⟨?_, ?_, ?_⟩
    · intro hf1
      simp [toolStep, toolResolve, hnorm, hcands, findBundlePage, hc1, hf1]
    · intro hf1 hf2
      simp [toolStep, toolResolve, hnorm, hcands, findBundlePage, hc1, hc2, hf1, hf2]
    · intro hf1 hf2
      exact ⟨notFoundMsg parts [parts ++ ["page.tsx"], parts ++ ["page.jsx"]],
        by simp [toolStep, toolResolve, hnorm, hcands, findBundlePage, hc1, hc2, hf1, hf2]⟩
  · intro habs hclean happs hsuf hbad
    subst habs
    have hnorm : normalizePageInput false parts = .ok parts := by
      simp [normalizePageInput, hclean, happs]
    by_cases hcond1 : pySuffix (pyName parts) ≠ ".tsx" ∧ pySuffix (pyName parts) ≠ ".jsx"
    · exact ⟨"The page (i.e. " ++ showPageParts parts ++ ") must be a .tsx or .jsx file",
        by simp [toolStep, toolResolve, hnorm, resolvePageCandidates, hsuf, hcond1]⟩
    · have hcond2 : pyName parts ≠ "page.tsx" ∧ pyName parts ≠ "page.jsx" := by
        cases hbad with
        | inl h => exact absurd h hcond1
        | inr h => exact h
      exact ⟨"The page (i.e. " ++ showPageParts parts ++
          ") must match **/page.tsx or **/page.jsx and must not start with apps/",
        by simp [toolStep, toolResolve, hnorm, resolvePageCandidates, hsuf, hcond1, hcond2]⟩
  · intro habs hclean happs hname hlen
    subst habs
    have hnorm : normalizePageInput false parts = .ok parts := by
      simp [normalizePageInput, hclean, happs]
    have hsufval : pySuffix (pyName parts) = ".tsx" ∨ pySuffix (pyName parts) = ".jsx" := by
      cases hname with
      | inl h => exact Or.inl (by rw [h]; decide)
      | inr h => exact Or.inr (by rw [h]; decide)
    have hsuf : pySuffix (pyName parts) ≠ "" := by
      cases hsufval with
      | inl h => rw [h]; decide
      | inr h => rw [h]; decide
    have hcond1 : ¬(pySuffix (pyName parts) ≠ ".tsx" ∧ pySuffix (pyName parts) ≠ ".jsx") := by
      cases hsufval with
      | inl h => intro hc; exact hc.1 h
      | inr h => intro hc; exact hc.2 h
    have hcond2 : ¬(pyName parts ≠ "page.tsx" ∧ pyName parts ≠ "page.jsx") := by
      cases hname with
      | inl h => intro hc; exact hc.1 h
      | inr h => intro hc; exact hc.2 h
    have hcands : resolvePageCandidates parts = .ok [parts] := by
      simp [resolvePageCandidates, hsuf, hcond1, hcond2]
    have hbadlen : parts.length < 2 ∨ parts.head? = some "apps" ∨
        (pyName parts ≠ "page.tsx" ∧ pyName parts ≠ "page.jsx") := Or.inl hlen
    exact ⟨"The page (i.e. " ++ showPageParts parts ++
        ") must match **/page.tsx or **/page.jsx and must not start with apps/",
      by simp [toolStep, toolResolve, hnorm, hcands, findBundlePage,
        normalizePagePathAndUri, hbadlen, hlen]⟩
  · intro habs hclean happs hname hlen hnofile
    subst habs
    have hnorm : normalizePageInput false parts = .ok parts := by
      simp [normalizePageInput, hclean, happs]
    have hsufval : pySuffix (pyName parts) = ".tsx" ∨ pySuffix (pyName parts) = ".jsx" := by
      cases hname with
      | inl h => exact Or.inl (by rw [h]; decide)
      | inr h => exact Or.inr (by rw [h]; decide)
    have hsuf : pySuffix (pyName parts) ≠ "" := by
      cases hsufval with
      | inl h => rw [h]; decide
      | inr h => rw [h]; decide
    have hcond1 : ¬(pySuffix (pyName parts) ≠ ".tsx" ∧ pySuffix (pyName parts) ≠ ".jsx") := by
      cases hsufval with
      | inl h => intro hc; exact hc.1 h
      | inr h => intro hc; exact hc.2 h
    have hcond2 : ¬(pyName parts ≠ "page.tsx" ∧ pyName parts ≠ "page.jsx") := by
      cases hname with
      | inl h => intro hc; exact hc.1 h
      | inr h => intro hc; exact hc.2 h
    have hcands : resolvePageCandidates parts = .ok [parts] := by
      simp [resolvePageCandidates, hsuf, hcond1, hcond2]
    have hok := normalizePagePathAndUri_ok parts hlen happs hname
    simp [toolStep, toolResolve, hnorm, hcands, findBundlePage, hok, hnofile]
  · intro habs hnil
    subst habs
    subst hnil
    exact ⟨"The page (i.e. page.tsx) must match **/page.tsx or **/page.jsx and must not start with apps/",
      rfl⟩

/-- Witness for C7: a bare directory `blog` resolves through `page.tsx` when
`apps/blog/page.tsx` exists; the same call with an absolute path is rejected
with InvalidPath; and a traversal path is rejected with InvalidPath. -/
theorem toolStep_validation_witness :
    (toolStep (fun l => l == ["apps", "blog", "page.tsx"]) [] false ["blog"] false).result =
      .ok (["apps", "blog", "page.tsx"], "ui://" ++ String.intercalate "/" ["blog"])
    ∧ (toolStep (fun l => l == ["apps", "blog", "page.tsx"]) [] true ["blog"] false).result =
      .error (.invalidPath ("The page (i.e. " ++ showPageParts ["blog"] ++ ") must be a relative path"))
    ∧ (∃ m, (toolStep (fun l => l == ["apps", "blog", "page.tsx"]) [] false
        ["..", "blog"] false).result = .error (.invalidPath m)) := by
  refine ⟨?_, ?_, ?_⟩
  · have h := (toolStep_validation (fun l => l == ["apps", "blog", "page.tsx"]) []
      false ["blog"] false).2.2.2.1 rfl (by decide) (by decide) (by decide) (by decide)
    have := h.1 (by decide)
    simpa using this
  · exact (toolStep_validation (fun l => l == ["apps", "blog", "page.tsx"]) []
      true ["blog"] false).2.1 rfl
  · exact (toolStep_validation (fun l => l == ["apps", "blog", "page.tsx"]) []
      false ["..", "blog"] false).2.2.1 rfl (by decide)

end Gdansk
